import Mathlib

/-!
Verification development for the rtsp-network-scanner repository.

The probing engine is embedded shallowly: network I/O is abstracted to the
raw response string a socket read would deliver (or, for the transport
probe, to an outcome value describing how the connect attempt ended), and
every pure computation of the source — response parsing, classification,
SDP parsing, stream-type detection, URL generation, result draining — is
translated into an executable Lean definition.  Durations are modelled as
rationals.  Character-level operations assume ASCII input, which is what
the scanner's protocol strings contain.
-/

/-- Character lists stand in for Python strings throughout the embedding. -/
abbrev Str := List Char

/-- Python str.lower for ASCII text. -/
def lowerStr (s : Str) : Str := s.map Char.toLower

/-- Python str.upper for ASCII text. -/
def upperStr (s : Str) : Str := s.map Char.toUpper

/-- Whitespace class of Python's regex `\s` and of `str.strip` (ASCII part). -/
def pyIsSpace (c : Char) : Bool :=
  c = ' ' || c = '\t' || c = '\n' || c = '\r' || c = '\x0b' || c = '\x0c'

/-- Word-character class of Python's regex `\w` (ASCII part). -/
def isWordChar (c : Char) : Bool := c.isAlphanum || c = '_'

/-- Python str.strip: drop leading and trailing whitespace. -/
def stripStr (s : Str) : Str :=
  ((s.dropWhile pyIsSpace).reverse.dropWhile pyIsSpace).reverse

/-- Value of a decimal digit string (captures of regex `\d+` fed to int()). -/
def digitsToNat (ds : Str) : Nat :=
  ds.foldl (fun n c => 10 * n + (c.toNat - 48)) 0

/-- Helper for `splitCRLF`: accumulates the current piece in reverse. -/
def splitCRLFAux : Str → Str → List Str
  | acc, [] => [acc.reverse]
  | acc, '\r' :: '\n' :: rest => acc.reverse :: splitCRLFAux [] rest
  | acc, c :: rest => splitCRLFAux (c :: acc) rest

/-- Python `response.split('\r\n')`: non-overlapping leftmost splitting. -/
def splitCRLF (s : Str) : List Str := splitCRLFAux [] s

/-- Python `'\n'.join(lines)`. -/
def joinNL (lines : List Str) : Str := List.intercalate ['\n'] lines

/-- Python `needle in hay` on strings: substring containment. -/
def strContains (needle : Str) : Str → Bool
  | [] => needle.isEmpty
  | c :: rest => needle.isPrefixOf (c :: rest) || strContains needle rest

/-- Leftmost-match regex search: try the matcher at every start position,
left to right, like Python `re.search`. -/
def searchLeft (m : Str → Option α) : Str → Option α
  | [] => m []
  | c :: rest =>
    match m (c :: rest) with
    | some a => some a
    | none => searchLeft m rest

/-!
Status-line parsing, `rtsp_tester.py` lines 355–357: `re.match` of
`RTSP/\d\.\d\s+(\d+)` against the first CRLF-split line, the captured
digit run converted with int().  `\s+` and `(\d+)` are greedy over
disjoint character classes, so maximal-munch scanning is exact.
-/

/-- Embeds the status-line match of `test_rtsp_connection` (prefix-anchored,
as `re.match` is). -/
def statusLineCode (l : Str) : Option Nat :=
  if ("RTSP/".toList).isPrefixOf l then
    match l.drop 5 with
    | d1 :: c :: d2 :: rest =>
      if d1.isDigit && c = '.' && d2.isDigit then
        let ws := rest.takeWhile pyIsSpace
        let ds := (rest.dropWhile pyIsSpace).takeWhile Char.isDigit
        if !ws.isEmpty && !ds.isEmpty then some (digitsToNat ds) else none
      else none
    | _ => none
  else none

/-!
SDP parsing, `rtsp_tester.py` `_parse_sdp` (lines 150–202).  The four
resolution regexes and the rtpmap regex are deterministic at each start
position (every greedy repetition is followed by a character outside its
class), except for the `.*` in the width/height pattern, whose greediness
selects the last height occurrence on the same line; `lastHeight` mirrors
that.  IGNORECASE is modelled by searching the lowercased text: the digit
captures are unaffected and the codec capture is uppercased afterwards
exactly as the source does.
-/

/-- Matcher for `a=rtpmap:\d+\s+(\w+)/\d+` at one position; returns the
captured codec name. -/
def matchRtpmapAt (l : Str) : Option Str :=
  if ("a=rtpmap:".toList).isPrefixOf l then
    let r1 := l.drop 9
    let ds := r1.takeWhile Char.isDigit
    if ds.isEmpty then none else
    let r2 := r1.dropWhile Char.isDigit
    if (r2.takeWhile pyIsSpace).isEmpty then none else
    let r3 := r2.dropWhile pyIsSpace
    let w := r3.takeWhile isWordChar
    if w.isEmpty then none else
    match r3.dropWhile isWordChar with
    | '/' :: r4 => if (r4.takeWhile Char.isDigit).isEmpty then none else some w
    | _ => none
  else none

/-- Matcher for `x-dimensions=(\d+),(\d+)` at one position. -/
def matchXDimAt (l : Str) : Option (Str × Str) :=
  if ("x-dimensions=".toList).isPrefixOf l then
    let r1 := l.drop 13
    let d1 := r1.takeWhile Char.isDigit
    if d1.isEmpty then none else
    match r1.dropWhile Char.isDigit with
    | ',' :: r2 =>
      let d2 := r2.takeWhile Char.isDigit
      if d2.isEmpty then none else some (d1, d2)
    | _ => none
  else none

/-- Matcher for `framesize:\d+\s+(\d+)-(\d+)` at one position. -/
def matchFramesizeAt (l : Str) : Option (Str × Str) :=
  if ("framesize:".toList).isPrefixOf l then
    let r1 := l.drop 10
    if (r1.takeWhile Char.isDigit).isEmpty then none else
    let r2 := r1.dropWhile Char.isDigit
    if (r2.takeWhile pyIsSpace).isEmpty then none else
    let r3 := r2.dropWhile pyIsSpace
    let d1 := r3.takeWhile Char.isDigit
    if d1.isEmpty then none else
    match r3.dropWhile Char.isDigit with
    | '-' :: r4 =>
      let d2 := r4.takeWhile Char.isDigit
      if d2.isEmpty then none else some (d1, d2)
    | _ => none
  else none

/-- Matcher for `resolution[:\s]+(\d+)x(\d+)` at one position. -/
def matchResAttrAt (l : Str) : Option (Str × Str) :=
  if ("resolution".toList).isPrefixOf l then
    let r1 := l.drop 10
    if (r1.takeWhile (fun c => c = ':' || pyIsSpace c)).isEmpty then none else
    let r2 := r1.dropWhile (fun c => c = ':' || pyIsSpace c)
    let d1 := r2.takeWhile Char.isDigit
    if d1.isEmpty then none else
    match r2.dropWhile Char.isDigit with
    | 'x' :: r3 =>
      let d2 := r3.takeWhile Char.isDigit
      if d2.isEmpty then none else some (d1, d2)
    | _ => none
  else none

/-- Matcher for `height[:\s]*=\s*(\d+)` at one position. -/
def matchHeightAt (l : Str) : Option Str :=
  if ("height".toList).isPrefixOf l then
    match (l.drop 6).dropWhile (fun c => c = ':' || pyIsSpace c) with
    | '=' :: r2 =>
      let d := (r2.dropWhile pyIsSpace).takeWhile Char.isDigit
      if d.isEmpty then none else some d
    | _ => none
  else none

/-- Greedy `.*height[:\s]*=\s*(\d+)`: the last height match reachable
without crossing a newline (regex `.` does not match `\n`). -/
def lastHeight : Str → Option Str
  | [] => none
  | c :: rest =>
    if c = '\n' then none
    else
      match lastHeight rest with
      | some d => some d
      | none => matchHeightAt (c :: rest)

/-- Matcher for `width[:\s]*=\s*(\d+).*height[:\s]*=\s*(\d+)` at one
position. -/
def matchWidthAt (l : Str) : Option (Str × Str) :=
  if ("width".toList).isPrefixOf l then
    match (l.drop 5).dropWhile (fun c => c = ':' || pyIsSpace c) with
    | '=' :: r2 =>
      let r3 := r2.dropWhile pyIsSpace
      let d1 := r3.takeWhile Char.isDigit
      if d1.isEmpty then none else
      match lastHeight (r3.dropWhile Char.isDigit) with
      | some d2 => some (d1, d2)
      | none => none
    | _ => none
  else none

/-- Leftmost `a=rtpmap` codec capture in (lowercased) SDP text. -/
def searchRtpmap (text : Str) : Option Str := searchLeft matchRtpmapAt text

/-- First resolution match in the source's fixed pattern priority order
(`res_patterns` loop of `_parse_sdp`). -/
def resFirstMatch (text : Str) : Option (Str × Str) :=
  (searchLeft matchXDimAt text).orElse fun _ =>
  (searchLeft matchFramesizeAt text).orElse fun _ =>
  (searchLeft matchResAttrAt text).orElse fun _ =>
  searchLeft matchWidthAt text

/-- Codec-name normalization of `_parse_sdp` (applied to the uppercased
capture; the `H.264`/`H.265` entries are unreachable for `\w+` captures but
are kept verbatim from the source). -/
def normalizeCodec (codec : String) : String :=
  if codec = "H264" ∨ codec = "H.264" then "H.264"
  else if codec = "H265" ∨ codec = "H.265" ∨ codec = "HEVC" then "H.265"
  else if codec = "MJPEG" ∨ codec = "JPEG" then "MJPEG"
  else if codec = "MPEG4" then "MPEG4"
  else codec

/-- Embeds `RTSPTester._parse_sdp`: returns the (codec, resolution) pair. -/
def parse_sdp (sdp_lines : List Str) : Option String × Option String :=
  let text := lowerStr (joinNL sdp_lines)
  let codec :=
    match searchRtpmap text with
    | some w => some (normalizeCodec (String.mk (upperStr w)))
    | none => none
  let res :=
    match resFirstMatch text with
    | some (w, h) => some (String.mk w ++ "x" ++ String.mk h)
    | none => none
  (codec, res)

/-!
Header scanning and classification, `test_rtsp_connection` lines 349–419.
-/

/-- State of the header/SDP accumulation loop (lines 361–380).
`content_length` is parsed into a local variable the source never reads
again; its int() conversion is modelled for plain digit strings only. -/
structure HeaderScan where
  server_info : Option Str
  content_length : Nat
  has_sdp_content_type : Bool
  in_sdp : Bool
  sdp_data : List Str
  deriving Repr, DecidableEq

/-- Initial loop state. -/
def HeaderScan.init : HeaderScan :=
  { server_info := none, content_length := 0, has_sdp_content_type := false,
    in_sdp := false, sdp_data := [] }

/-- Python int() on the Content-Length value, keeping the old value when the
conversion would raise ValueError (sign/underscore forms are out of scope:
the variable is write-only in the source). -/
def parseLenOr (old : Nat) (s : Str) : Nat :=
  let t := stripStr s
  if !t.isEmpty && t.all Char.isDigit then digitsToNat t else old

/-- One iteration of the `for line in lines` loop: the server and
content-length checks are independent ifs, while the content-type check and
the SDP accumulation form an if/elif pair, exactly as in the source. -/
def scanLine (st : HeaderScan) (line : Str) : HeaderScan :=
  let low := lowerStr line
  let st :=
    if ("server:".toList).isPrefixOf low then
      { st with server_info := some (stripStr (line.drop 7)) }
    else st
  let st :=
    if ("content-length:".toList).isPrefixOf low then
      { st with content_length := parseLenOr st.content_length (line.drop 15) }
    else st
  if ("content-type:".toList).isPrefixOf low && strContains ("sdp".toList) low then
    { st with has_sdp_content_type := true, in_sdp := true }
  else if st.in_sdp && line.any (fun c => !pyIsSpace c) then
    { st with sdp_data := st.sdp_data ++ [line] }
  else st

/-- Header/SDP scan over all CRLF-split lines. -/
def collect_headers (lines : List Str) : HeaderScan :=
  lines.foldl scanLine HeaderScan.init

/-- Marker test of the 200-validation block: `'v=' in sdp_text or 'm=' in
sdp_text or 'a=rtpmap' in sdp_text`. -/
def sdp_marker_present (body : Str) : Bool :=
  strContains ("v=".toList) body || strContains ("m=".toList) body ||
    strContains ("a=rtpmap".toList) body

/-- Validity test for a 200 response: `has_sdp_content_type and sdp_data`
followed by the marker check. -/
def valid_sdp_check (st : HeaderScan) : Bool :=
  st.has_sdp_content_type && !st.sdp_data.isEmpty &&
    sdp_marker_present (joinNL st.sdp_data)

/-- Result record of `test_rtsp_connection` (the fields the classification
writes; response times are not modelled). `has_valid_sdp` is `none` when the
source leaves the key absent. -/
structure TestResult where
  reachable : Bool
  status_code : Option Nat
  has_valid_sdp : Option Bool
  error : Option String
  server_info : Option String
  codec : Option String
  resolution : Option String
  deriving Repr, DecidableEq

/-- Status-code dispatch of `test_rtsp_connection` (lines 382–417), applied
once a status code has been extracted. -/
def classify_status (code : Nat) (st : HeaderScan) : TestResult :=
  let server := st.server_info.map String.mk
  if code = 200 then
    if valid_sdp_check st then
      let ci := parse_sdp st.sdp_data
      { reachable := true, status_code := some code, has_valid_sdp := some true,
        error := none, server_info := server, codec := ci.1, resolution := ci.2 }
    else
      { reachable := false, status_code := some code, has_valid_sdp := some false,
        error := some "No valid SDP content", server_info := server,
        codec := none, resolution := none }
  else if code = 401 then
    { reachable := true, status_code := some code, has_valid_sdp := none,
      error := some "Authentication required", server_info := server,
      codec := none, resolution := none }
  else if code = 404 then
    { reachable := false, status_code := some code, has_valid_sdp := none,
      error := some "Path not found", server_info := server,
      codec := none, resolution := none }
  else
    { reachable := false, status_code := some code, has_valid_sdp := none,
      error := some ("Status code: " ++ toString code), server_info := server,
      codec := none, resolution := none }

/-- Embeds the response-interpretation core of
`RTSPTester.test_rtsp_connection` (lines 349–419), from the raw response
text a DESCRIBE produced to the classified result record. -/
def test_rtsp_connection (response : String) : TestResult :=
  let lines := splitCRLF response.toList
  match statusLineCode (lines.headD []) with
  | none =>
    { reachable := false, status_code := none, has_valid_sdp := none,
      error := some "Invalid RTSP response", server_info := none,
      codec := none, resolution := none }
  | some code => classify_status code (collect_headers lines)

/-!
Stream-type detection, `channel_scanner.py` `_detect_stream_type`
(lines 249–294).
-/

/-- Matcher for `/streaming/channels/(\d)0(\d)` at one position; returns the
second captured digit. -/
def matchHikAt (l : Str) : Option Char :=
  if ("/streaming/channels/".toList).isPrefixOf l then
    match l.drop 20 with
    | a :: z :: b :: _ =>
      if a.isDigit && z = '0' && b.isDigit then some b else none
    | _ => none
  else none

/-- Second digit of the first Hikvision channel-number match in the
lowercased path. -/
def firstHikDigit (low : Str) : Option Char := searchLeft matchHikAt low

/-- Sub-stream indicator substrings, in source order. -/
def sub_indicators : List Str :=
  ["/sub/".toList, "subtype=1".toList,
   "videosub".toList, "/stream2".toList, "/ch02".toList, "/channel2".toList,
   "/video2".toList, "/cam2".toList,
   "resolution=640x480".toList, "resolution=320x240".toList]

/-- Main-stream indicator substrings, in source order. -/
def main_indicators : List Str :=
  ["/main/".toList, "channel=1&subtype=0".toList, "subtype=0".toList,
   "videomain".toList, "/stream1".toList, "/ch01".toList, "/channel1".toList,
   "/video1".toList, "/cam1".toList,
   "resolution=1920x1080".toList, "resolution=1280x720".toList]

/-- True when some sub-stream indicator occurs in the lowercased path. -/
def hasSubIndicator (low : Str) : Bool :=
  sub_indicators.any (fun ind => strContains ind low)

/-- True when some main-stream indicator occurs in the lowercased path. -/
def hasMainIndicator (low : Str) : Bool :=
  main_indicators.any (fun ind => strContains ind low)

/-- Indicator cascade of `_detect_stream_type`: sub indicators are checked
before main indicators, and no match yields the empty string. -/
def indicator_stream_type (low : Str) : String :=
  if hasSubIndicator low then "Sub"
  else if hasMainIndicator low then "Main"
  else ""

/-- Embeds `ChannelScanner._detect_stream_type`: Hikvision numeric pattern
first (only the digits 1 and 2 return there), then the indicator
cascade. -/
def detect_stream_type (path : String) : String :=
  let low := lowerStr path.toList
  match firstHikDigit low with
  | some b =>
    if b = '1' then "Main"
    else if b = '2' then "Sub"
    else indicator_stream_type low
  | none => indicator_stream_type low

/-!
URL generation and credentials, `rtsp_tester.py` `generate_rtsp_url`
(lines 681–701) and `channel_scanner.py` `COMMON_CREDENTIALS`
(lines 174–185).
-/

/-- Python truthiness of an optional string: None and the empty string are
falsy. -/
def truthy : Option String → Bool
  | none => false
  | some s => !s.isEmpty

/-- Embeds `RTSPTester.generate_rtsp_url`. -/
def generate_rtsp_url (host : String) (port : Nat) (path : String)
    (username password : Option String) : String :=
  if truthy username && truthy password then
    "rtsp://" ++ username.getD "" ++ ":" ++ password.getD "" ++ "@" ++ host ++
      ":" ++ toString port ++ path
  else if truthy username then
    "rtsp://" ++ username.getD "" ++ "@" ++ host ++ ":" ++ toString port ++ path
  else
    "rtsp://" ++ host ++ ":" ++ toString port ++ path

/-- Default credential corpus of the channel scanner. -/
def COMMON_CREDENTIALS : List (String × String) :=
  [("admin", "admin"), ("admin", ""), ("admin", "12345"), ("admin", "password"),
   ("admin", "123456"), ("root", "root"), ("root", ""), ("root", "pass"),
   ("user", "user"), ("", "")]

/-- Deliberately invalid probe path of the permissiveness detector. -/
def INVALID_TEST_PATH : String := "/thispathshouldnotexist99999"

/-!
Permissiveness detection and channel testing, `channel_scanner.py`
`_is_permissive_server` (lines 204–228) and `_test_channel`
(lines 350–394).  The network is abstracted as a function from the
requested URL to the raw response text the DESCRIBE would read.
-/

/-- Embeds `ChannelScanner._is_permissive_server`: one DESCRIBE against the
invalid path; permissive exactly when the probe's status code is 200 or
401. -/
def is_permissive_server (server : String → String) (host : String)
    (port : Nat) (username password : Option String) : Bool :=
  let url := generate_rtsp_url host port INVALID_TEST_PATH username password
  let result := test_rtsp_connection (server url)
  decide (result.status_code = some 200 ∨ result.status_code = some 401)

/-- Channel record built by `_test_channel` (response times not
modelled). -/
structure ChannelInfo where
  url : String
  path : String
  status_code : Option Nat
  stream_type : String
  codec : Option String
  resolution : Option String
  server_info : Option String
  requires_auth : Bool
  deriving Repr, DecidableEq

/-- Embeds `ChannelScanner._test_channel`, from the raw response text of
the probe for `url`. -/
def test_channel (url path : String) (is_permissive : Bool)
    (response : String) : Option ChannelInfo :=
  let result := test_rtsp_connection response
  let status := result.status_code
  if (status = some 200 ∧ result.has_valid_sdp = some true) ∨
      (status = some 401 ∧ is_permissive = false) then
    some { url := url, path := path, status_code := status,
           stream_type := detect_stream_type path, codec := result.codec,
           resolution := result.resolution, server_info := result.server_info,
           requires_auth := decide (status = some 401) }
  else none

/-- Credential-scan record built by `_test_channel_with_creds` (response
times not modelled). -/
structure CredRec where
  url : String
  path : String
  username : String
  password : String
  status_code : Option Nat
  server_info : Option String
  deriving Repr, DecidableEq

/-- Embeds `ChannelScanner._test_channel_with_creds`. -/
def test_channel_with_creds (url path username password : String)
    (response : String) : Option CredRec :=
  let result := test_rtsp_connection response
  if result.reachable = true ∧ result.status_code = some 200 then
    some { url := url, path := path, username := username,
           password := password, status_code := result.status_code,
           server_info := result.server_info }
  else none

/-!
Transport probe and orchestration, `port_scanner.py`.
-/

/-- How a `connect_ex` attempt inside `scan_port` ends: the source's
success path and its three exception handlers, each carrying the elapsed
time measured at that point. -/
inductive ConnectAttempt where
  | completed (code : Nat) (elapsed : ℚ)
  | timedOut (elapsed : ℚ)
  | socketError (msg : String) (elapsed : ℚ)
  | unexpectedError (msg : String) (elapsed : ℚ)
  deriving Repr, DecidableEq

/-- Elapsed time carried by an attempt outcome. -/
def ConnectAttempt.elapsed : ConnectAttempt → ℚ
  | .completed _ t => t
  | .timedOut t => t
  | .socketError _ t => t
  | .unexpectedError _ t => t

/-- Embeds `PortScanner.scan_port` (lines 90–125): every outcome, including
each exception handler, returns a `(host, port, is_open, response_time)`
tuple; only a zero `connect_ex` code is open. -/
def scan_port (host : String) (port : Nat) (attempt : ConnectAttempt) :
    String × Nat × Bool × ℚ :=
  match attempt with
  | .completed code t => (host, port, code == 0, t)
  | .timedOut t => (host, port, false, t)
  | .socketError _ t => (host, port, false, t)
  | .unexpectedError _ t => (host, port, false, t)

/-- Positive-result record kept by the port-scan drain loops. -/
structure PortRec where
  host : String
  port : Nat
  status : String
  response_time : ℚ
  deriving Repr, DecidableEq

/-- Body of the `as_completed` drain for port scans: keep a record only
when the port is open. -/
def port_positive (r : String × Nat × Bool × ℚ) : Option PortRec :=
  if r.2.2.1 then
    some { host := r.1, port := r.2.1, status := "open",
           response_time := r.2.2.2 }
  else none

/-- Orchestrator drain loop: process completed items in arrival order,
append only positive results, and bump the progress counter once per
item. -/
def drain_results (f : α → Option β) (items : List α) : List β × Nat :=
  items.foldl (fun acc a => (acc.1 ++ (f a).toList, acc.2 + 1)) ([], 0)

/-- Embeds `PortScanner.scan_host`: the completion order of the futures is
an arbitrary permutation of the submitted work, supplied as the argument. -/
def scan_host (completions : List (String × Nat × Bool × ℚ)) :
    List PortRec × Nat :=
  drain_results port_positive completions

/-- One channel work item of `scan_channels`: url, path, permissive flag
and the raw response its probe read. -/
def channel_item_run : String × String × Bool × String → Option ChannelInfo :=
  fun it => test_channel it.1 it.2.1 it.2.2.1 it.2.2.2

/-- One credential work item of `scan_with_credentials`. -/
def cred_item_run : String × String × String × String × String → Option CredRec :=
  fun it => test_channel_with_creds it.1 it.2.1 it.2.2.1 it.2.2.2.1 it.2.2.2.2

/-- Dotted-quad rendering of an IPv4 address held as an integer
(`str(IPv4Address(ip))`). -/
def ipToString (n : Nat) : String :=
  toString (n / 16777216 % 256) ++ "." ++ toString (n / 65536 % 256) ++ "." ++
    toString (n / 256 % 256) ++ "." ++ toString (n % 256)

/-- Embeds `PortScanner.scan_network` (lines 172–236).  The CIDR expansion
`ip_network(...)`/`.hosts()` is abstracted as an already-attempted parse:
`Except.error` stands for the ValueError a malformed network string raises,
which the source catches, logs and converts into an empty ordinary result
list (an uncaught exception would be `Except.error` in the result). -/
def scan_network (parsed : Except String (List String))
    (net : String → Nat → ConnectAttempt) (ports : List Nat) :
    Except String (List PortRec) :=
  match parsed with
  | Except.error _ => Except.ok []
  | Except.ok hosts =>
    Except.ok
      (drain_results port_positive
        (hosts.flatMap (fun h => ports.map (fun p => scan_port h p (net h p))))).1

/-- Embeds `PortScanner.scan_ip_range` (lines 238–301): both endpoint
parses may fail (AddressValueError, caught by the blanket handler, which
returns an empty list), a reversed range also returns an empty list, and
otherwise every host in the inclusive range is crossed with the ports. -/
def scan_ip_range (startParsed endParsed : Except String Nat)
    (net : String → Nat → ConnectAttempt) (ports : List Nat) :
    Except String (List PortRec) :=
  match startParsed with
  | Except.error _ => Except.ok []
  | Except.ok s =>
    match endParsed with
    | Except.error _ => Except.ok []
    | Except.ok e =>
      if s > e then Except.ok []
      else
        let hosts := (List.range (e + 1 - s)).map (fun i => ipToString (s + i))
        Except.ok
          (drain_results port_positive
            (hosts.flatMap (fun h => ports.map (fun p => scan_port h p (net h p))))).1

/-- Modelled from the spec: the literal status-line shape
`RTSP/<digit>.<digit> <3-digit-code>` the spec claims gates status-code
extraction — the code after the whitespace must be a digit run of length
exactly three. -/
def spec_status_shape (l : Str) : Bool :=
  if ("RTSP/".toList).isPrefixOf l then
    match l.drop 5 with
    | d1 :: c :: d2 :: rest =>
      d1.isDigit && c = '.' && d2.isDigit &&
        !(rest.takeWhile pyIsSpace).isEmpty &&
        ((rest.dropWhile pyIsSpace).takeWhile Char.isDigit).length = 3
    | _ => false
  else false

/-- Status-line decomposition that actually gates status-code extraction in
the source: the `RTSP/<digit>.<digit>` prefix followed by at least one
whitespace character and at least one digit, anything after that ignored. -/
def statusShape (l : Str) : Prop :=
  ∃ (d1 d2 : Char) (ws ds rest : Str),
    d1.isDigit = true ∧ d2.isDigit = true ∧
    ws ≠ [] ∧ (∀ c ∈ ws, pyIsSpace c = true) ∧
    ds ≠ [] ∧ (∀ c ∈ ds, c.isDigit = true) ∧
    l = 'R' :: 'T' :: 'S' :: 'P' :: '/' :: d1 :: '.' :: d2 :: (ws ++ (ds ++ rest))

/-!
Supporting lemmas.
-/

/-- Every element kept by takeWhile satisfies the predicate. -/
theorem mem_takeWhile_sat {p : Char → Bool} :
    ∀ l : Str, ∀ c ∈ l.takeWhile p, p c = true := by
  intro l
  induction l with
  | nil => intro c hc; simp [List.takeWhile] at hc
  | cons a t ih =>
    intro c hc
    rw [List.takeWhile_cons] at hc
    by_cases ha : p a
    · rw [if_pos ha] at hc
      rcases List.mem_cons.mp hc with rfl | hc
      · exact ha
      · exact ih c hc
    · rw [if_neg ha] at hc
      simp at hc

/-- takeWhile runs through a block of satisfying elements. -/
theorem takeWhile_append_all {p : Char → Bool} {l₁ : Str} (l₂ : Str)
    (h : ∀ c ∈ l₁, p c = true) :
    (l₁ ++ l₂).takeWhile p = l₁ ++ l₂.takeWhile p := by
  induction l₁ with
  | nil => simp
  | cons a t ih =>
    have ha : p a = true := h a (List.mem_cons_self a t)
    simp only [List.cons_append, List.takeWhile_cons, ha, if_true]
    rw [ih (fun c hc => h c (List.mem_cons_of_mem a hc))]

/-- dropWhile skips a block of satisfying elements. -/
theorem dropWhile_append_all {p : Char → Bool} {l₁ : Str} (l₂ : Str)
    (h : ∀ c ∈ l₁, p c = true) :
    (l₁ ++ l₂).dropWhile p = l₂.dropWhile p := by
  induction l₁ with
  | nil => simp
  | cons a t ih =>
    have ha : p a = true := h a (List.mem_cons_self a t)
    simp only [List.cons_append, List.dropWhile_cons, ha, if_true]
    exact ih (fun c hc => h c (List.mem_cons_of_mem a hc))

/-- Digits are not regex whitespace. -/
theorem digit_not_space {c : Char} (h : c.isDigit = true) : pyIsSpace c = false := by
  have h1 : '0' ≤ c ∧ c ≤ '9' := by
    simpa [Char.isDigit, Bool.and_eq_true, decide_eq_true_eq] using h
  unfold pyIsSpace
  simp only [Bool.or_eq_false_iff, decide_eq_false_iff_not]
  refine ⟨⟨⟨⟨⟨?_, ?_⟩, ?_⟩, ?_⟩, ?_⟩, ?_⟩ <;>
    rintro rfl <;> exact absurd h1.1 (by decide)

/-- Progress counting: every drained item bumps the counter once. -/
theorem drain_results_count (f : α → Option β) (l : List α) :
    (drain_results f l).2 = l.length := by
  have aux : ∀ (l : List α) (acc : List β) (n : Nat),
      (l.foldl (fun acc a => (acc.1 ++ (f a).toList, acc.2 + 1)) (acc, n)).2 =
        n + l.length := by
    intro l
    induction l with
    | nil => intro acc n; simp
    | cons a t ih =>
      intro acc n
      simp only [List.foldl_cons, List.length_cons]
      rw [ih]
      omega
  simpa [drain_results] using aux l [] 0

/-- Every drained output comes from some submitted item mapped to it. -/
theorem drain_results_mem (f : α → Option β) (l : List α) (b : β)
    (hb : b ∈ (drain_results f l).1) : ∃ a ∈ l, f a = some b := by
  have aux : ∀ (l : List α) (acc : List β) (n : Nat),
      b ∈ (l.foldl (fun acc a => (acc.1 ++ (f a).toList, acc.2 + 1)) (acc, n)).1 →
        b ∈ acc ∨ ∃ a ∈ l, f a = some b := by
    intro l
    induction l with
    | nil => intro acc n h; simp at h; exact Or.inl h
    | cons a t ih =>
      intro acc n h
      simp only [List.foldl_cons] at h
      rcases ih (acc ++ (f a).toList) (n + 1) h with hacc | ⟨a₂, ha₂, hfa⟩
      · rcases List.mem_append.mp hacc with h1 | h2
        · exact Or.inl h1
        · refine Or.inr ⟨a, List.mem_cons_self a t, ?_⟩
          cases hfa : f a with
          | none => rw [hfa] at h2; simp at h2
          | some b₂ =>
            rw [hfa] at h2
            simp only [Option.toList_some, List.mem_singleton] at h2
            rw [h2]
      · exact Or.inr ⟨a₂, List.mem_cons_of_mem a ha₂, hfa⟩
  have := aux l [] 0 (by simpa [drain_results] using hb)
  simpa using this

/-- Unfolding equation for `test_rtsp_connection`. -/
theorem test_rtsp_connection_eq (r : String) :
    test_rtsp_connection r =
      match statusLineCode ((splitCRLF r.toList).headD []) with
      | none =>
        { reachable := false, status_code := none, has_valid_sdp := none,
          error := some "Invalid RTSP response", server_info := none,
          codec := none, resolution := none }
      | some code => classify_status code (collect_headers (splitCRLF r.toList)) := rfl

/-- Classification always records the extracted status code. -/
theorem classify_status_code_eq (code : Nat) (st : HeaderScan) :
    (classify_status code st).status_code = some code := by
  unfold classify_status
  split_ifs <;> rfl

/-- Reachable classifications only arise from status 200 or 401. -/
theorem reachable_status (r : String)
    (h : (test_rtsp_connection r).reachable = true) :
    (test_rtsp_connection r).status_code = some 200 ∨
      (test_rtsp_connection r).status_code = some 401 := by
  cases hm : statusLineCode ((splitCRLF r.toList).headD []) with
  | none => simp only [test_rtsp_connection_eq, hm] at h; simp at h
  | some code =>
    simp only [test_rtsp_connection_eq, hm] at h ⊢
    unfold classify_status at h ⊢
    split_ifs at h ⊢ with h200 hval h401 <;> simp_all

/-- A 200 classified reachable has valid SDP recorded. -/
theorem reachable200_valid_sdp (r : String)
    (h1 : (test_rtsp_connection r).reachable = true)
    (h2 : (test_rtsp_connection r).status_code = some 200) :
    (test_rtsp_connection r).has_valid_sdp = some true := by
  cases hm : statusLineCode ((splitCRLF r.toList).headD []) with
  | none => simp only [test_rtsp_connection_eq, hm] at h1; simp at h1
  | some code =>
    simp only [test_rtsp_connection_eq, hm] at h1 h2 ⊢
    unfold classify_status at h1 h2 ⊢
    split_ifs at h1 h2 ⊢ with h200 hval h401 <;> simp_all

/-- A 401 extraction is always classified reachable at the tester level. -/
theorem status401_reachable (r : String)
    (h : (test_rtsp_connection r).status_code = some 401) :
    (test_rtsp_connection r).reachable = true := by
  cases hm : statusLineCode ((splitCRLF r.toList).headD []) with
  | none => simp only [test_rtsp_connection_eq, hm] at h; simp at h
  | some code =>
    simp only [test_rtsp_connection_eq, hm] at h ⊢
    unfold classify_status at h ⊢
    split_ifs at h ⊢ with h200 hval h401 <;> simp_all

/-- A 200 with valid SDP recorded is classified reachable. -/
theorem valid200_reachable (r : String)
    (h2 : (test_rtsp_connection r).status_code = some 200)
    (h3 : (test_rtsp_connection r).has_valid_sdp = some true) :
    (test_rtsp_connection r).reachable = true := by
  cases hm : statusLineCode ((splitCRLF r.toList).headD []) with
  | none => simp only [test_rtsp_connection_eq, hm] at h2; simp at h2
  | some code =>
    simp only [test_rtsp_connection_eq, hm] at h2 h3 ⊢
    unfold classify_status at h2 h3 ⊢
    split_ifs at h2 h3 ⊢ with h200 hval h401 <;> simp_all

/-- Explicit-form evaluation of the status-line matcher. -/
theorem statusLineCode_explicit (d1 c2 d2 : Char) (rest : Str) :
    statusLineCode ('R' :: 'T' :: 'S' :: 'P' :: '/' :: d1 :: c2 :: d2 :: rest) =
      if d1.isDigit && c2 = '.' && d2.isDigit then
        if !(rest.takeWhile pyIsSpace).isEmpty &&
            !((rest.dropWhile pyIsSpace).takeWhile Char.isDigit).isEmpty then
          some (digitsToNat ((rest.dropWhile pyIsSpace).takeWhile Char.isDigit))
        else none
      else none := rfl

/-- The status-line matcher without its leading protocol label yields
nothing. -/
theorem statusLineCode_no_label {l : Str}
    (h : ("RTSP/".toList).isPrefixOf l = false) : statusLineCode l = none := by
  unfold statusLineCode
  rw [h]
  rfl

/-- A status code is extracted exactly when the line decomposes as
`RTSP/<digit>.<digit>` plus whitespace plus a nonempty digit run. -/
theorem statusLineCode_isSome_iff (l : Str) :
    (statusLineCode l).isSome = true ↔ statusShape l := by
  constructor
  · intro h
    by_cases hpre : ("RTSP/".toList).isPrefixOf l = true
    · obtain ⟨t, ht⟩ := List.isPrefixOf_iff_prefix.mp hpre
      rcases t with _ | ⟨d1, _ | ⟨c2, _ | ⟨d2, rest⟩⟩⟩
      · rw [← ht] at h
        rw [show statusLineCode ("RTSP/".toList ++ []) = none from rfl] at h
        simp at h
      · rw [← ht] at h
        rw [show statusLineCode ("RTSP/".toList ++ [d1]) = none from rfl] at h
        simp at h
      · rw [← ht] at h
        rw [show statusLineCode ("RTSP/".toList ++ [d1, c2]) = none from rfl] at h
        simp at h
      · rw [← ht] at h
        rw [show ("RTSP/".toList ++ (d1 :: c2 :: d2 :: rest)) =
              'R' :: 'T' :: 'S' :: 'P' :: '/' :: d1 :: c2 :: d2 :: rest from rfl] at h
        rw [statusLineCode_explicit] at h
        split_ifs at h with hd hne
        · simp only [Bool.and_eq_true, decide_eq_true_eq] at hd
          obtain ⟨⟨hd1, hc2⟩, hd2⟩ := hd
          subst hc2
          simp only [Bool.and_eq_true, Bool.not_eq_true'] at hne
          obtain ⟨hws0, hds0⟩ := hne
          refine ⟨d1, d2, rest.takeWhile pyIsSpace,
            (rest.dropWhile pyIsSpace).takeWhile Char.isDigit,
            (rest.dropWhile pyIsSpace).dropWhile Char.isDigit,
            hd1, hd2, List.isEmpty_eq_false.mp hws0, mem_takeWhile_sat rest,
            List.isEmpty_eq_false.mp hds0, mem_takeWhile_sat _, ?_⟩
          rw [← ht]
          have h1 : (rest.dropWhile pyIsSpace).takeWhile Char.isDigit ++
              (rest.dropWhile pyIsSpace).dropWhile Char.isDigit =
                rest.dropWhile pyIsSpace := List.takeWhile_append_dropWhile _ _
          have h2 : rest.takeWhile pyIsSpace ++ rest.dropWhile pyIsSpace = rest :=
            List.takeWhile_append_dropWhile _ _
          rw [h1, h2]
          rfl
        · simp at h
        · simp at h
    · have hfalse : ("RTSP/".toList).isPrefixOf l = false := by
        revert hpre; cases ("RTSP/".toList).isPrefixOf l <;> simp
      rw [statusLineCode_no_label hfalse] at h
      simp at h
  · rintro ⟨d1, d2, ws, ds, rest, hd1, hd2, hwsne, hws, hdsne, hds, rfl⟩
    rw [show ('R' :: 'T' :: 'S' :: 'P' :: '/' :: d1 :: '.' :: d2 :: (ws ++ (ds ++ rest))) =
          'R' :: 'T' :: 'S' :: 'P' :: '/' :: d1 :: '.' :: d2 :: (ws ++ (ds ++ rest)) from rfl]
    rw [statusLineCode_explicit]
    have hcond : (d1.isDigit && decide ('.' = '.') && d2.isDigit) = true := by
      simp [hd1, hd2]
    rw [if_pos hcond]
    have htw : (ws ++ (ds ++ rest)).takeWhile pyIsSpace =
        ws ++ (ds ++ rest).takeWhile pyIsSpace := takeWhile_append_all _ hws
    have hdw : (ws ++ (ds ++ rest)).dropWhile pyIsSpace =
        (ds ++ rest).dropWhile pyIsSpace := dropWhile_append_all _ hws
    rcases ds with _ | ⟨e, ds1⟩
    · exact absurd rfl hdsne
    have he : Char.isDigit e = true := hds e (List.mem_cons_self e ds1)
    have hdw2 : ((e :: ds1) ++ rest).dropWhile pyIsSpace = (e :: ds1) ++ rest := by
      rw [List.cons_append, List.dropWhile_cons, digit_not_space he]
      simp
    have htw2 : ((e :: ds1) ++ rest).takeWhile Char.isDigit =
        (e :: ds1) ++ rest.takeWhile Char.isDigit := takeWhile_append_all _ hds
    rw [htw, hdw, hdw2, htw2]
    rcases ws with _ | ⟨w, ws1⟩
    · exact absurd rfl hwsne
    simp


/-- Evaluation of the classifier at status 200. -/
theorem classify_200 (st : HeaderScan) :
    classify_status 200 st =
      if valid_sdp_check st then
        { reachable := true, status_code := some 200, has_valid_sdp := some true,
          error := none, server_info := st.server_info.map String.mk,
          codec := (parse_sdp st.sdp_data).1,
          resolution := (parse_sdp st.sdp_data).2 }
      else
        { reachable := false, status_code := some 200, has_valid_sdp := some false,
          error := some "No valid SDP content",
          server_info := st.server_info.map String.mk,
          codec := none, resolution := none } := rfl

/-- Markers never occur in an empty accumulated body. -/
theorem sdp_marker_empty : sdp_marker_present (joinNL []) = false := rfl

/-- Claim C1: for every channel probe whose response carries statusCode 401,
the channel record exists exactly when the permissiveness flag is false, any
record produced carries requiresAuth = true, and when the permissiveness
probe for the host:port itself answered 401, no 401 response yields a
channel record. -/
theorem claim_C1_auth_gating (url path : String) (server : String → String)
    (host : String) (port : Nat) (u p : Option String) (chanResp : String)
    (h : (test_rtsp_connection chanResp).status_code = some 401) :
    (∀ perm : Bool,
      (∃ info, test_channel url path perm chanResp = some info) ↔ perm = false) ∧
    (∀ (perm : Bool) info, test_channel url path perm chanResp = some info →
      info.requires_auth = true) ∧
    ((test_rtsp_connection
        (server (generate_rtsp_url host port INVALID_TEST_PATH u p))).status_code =
          some 401 →
      test_channel url path (is_permissive_server server host port u p) chanResp =
        none) := by
  refine ⟨?_, ?_, ?_⟩
  · intro perm
    constructor
    · rintro ⟨info, hinfo⟩
      simp only [test_channel] at hinfo
      rw [h] at hinfo
      split_ifs at hinfo with hc
      rcases hc with ⟨h4, _⟩ | ⟨_, hperm⟩
      · simp at h4
      · exact hperm
    · rintro rfl
      simp [test_channel, h]
  · intro perm info hinfo
    simp only [test_channel] at hinfo
    rw [h] at hinfo
    split_ifs at hinfo with hc
    obtain rfl := Option.some.inj hinfo
    simp
  · intro hprobe
    have hperm : is_permissive_server server host port u p = true := by
      simp only [is_permissive_server]
      rw [hprobe]
      rfl
    rw [hperm]
    simp only [test_channel]
    rw [h]
    rw [if_neg ?_]
    rintro (⟨h4, _⟩ | ⟨_, hf⟩)
    · simp at h4
    · simp at hf

/-- Witness for claim C1 at a concrete 401 exchange. -/
theorem claim_C1_witness :
    test_channel "rtsp://cam:554/live" "/live"
      (is_permissive_server (fun _ => "RTSP/1.0 401 Unauthorized\r\n\r\n")
        "cam" 554 none none)
      "RTSP/1.0 401 Unauthorized\r\n\r\n" = none :=
  (claim_C1_auth_gating "rtsp://cam:554/live" "/live"
    (fun _ => "RTSP/1.0 401 Unauthorized\r\n\r\n") "cam" 554 none none
    "RTSP/1.0 401 Unauthorized\r\n\r\n" rfl).2.2 rfl

/-- Claim C2: a 200 outcome is reachable with valid SDP exactly when an
SDP content-type header was seen and the accumulated body carries one of
the markers; otherwise it is unreachable with error "No valid SDP
content". -/
theorem claim_C2_sdp_gate (response : String)
    (h : (test_rtsp_connection response).status_code = some 200) :
    ((test_rtsp_connection response).reachable = true ∧
        (test_rtsp_connection response).has_valid_sdp = some true ↔
      (collect_headers (splitCRLF response.toList)).has_sdp_content_type = true ∧
        sdp_marker_present
          (joinNL (collect_headers (splitCRLF response.toList)).sdp_data) = true) ∧
    (¬((collect_headers (splitCRLF response.toList)).has_sdp_content_type = true ∧
        sdp_marker_present
          (joinNL (collect_headers (splitCRLF response.toList)).sdp_data) = true) →
      (test_rtsp_connection response).reachable = false ∧
      (test_rtsp_connection response).has_valid_sdp = some false ∧
      (test_rtsp_connection response).error = some "No valid SDP content") := by
  cases hm : statusLineCode ((splitCRLF response.toList).headD []) with
  | none => simp only [test_rtsp_connection_eq, hm] at h; simp at h
  | some code =>
    simp only [test_rtsp_connection_eq, hm] at h ⊢
    rw [classify_status_code_eq] at h
    obtain rfl : code = 200 := Option.some.inj h
    rw [classify_200]
    cases hv : valid_sdp_check (collect_headers (splitCRLF response.toList)) with
    | true =>
      rw [if_pos rfl]
      have hv2 := hv
      simp only [valid_sdp_check, Bool.and_eq_true] at hv2
      obtain ⟨⟨hct, _⟩, hmk⟩ := hv2
      constructor
      · exact ⟨fun _ => ⟨hct, hmk⟩, fun _ => ⟨rfl, rfl⟩⟩
      · intro hn
        exact absurd ⟨hct, hmk⟩ hn
    | false =>
      rw [if_neg (by simp)]
      constructor
      · constructor
        · rintro ⟨_, hfalse⟩
          simp at hfalse
        · rintro ⟨hct, hmk⟩
          exfalso
          have hdata : (collect_headers (splitCRLF response.toList)).sdp_data ≠ [] := by
            intro hnil
            rw [hnil] at hmk
            exact absurd hmk (by rw [sdp_marker_empty]; simp)
          have hie : (collect_headers (splitCRLF response.toList)).sdp_data.isEmpty
              = false := List.isEmpty_eq_false.mpr hdata
          have hvt : valid_sdp_check (collect_headers (splitCRLF response.toList))
              = true := by
            unfold valid_sdp_check
            rw [hct, hmk, hie]
            rfl
          rw [hv] at hvt
          exact absurd hvt (by simp)
      · intro _
        exact ⟨rfl, rfl, rfl⟩

/-- Witness for claim C2 at a concrete SDP-bearing 200 exchange. -/
theorem claim_C2_witness :
    (test_rtsp_connection
        "RTSP/1.0 200 OK\r\nContent-Type: application/sdp\r\nv=0").reachable = true ∧
    (test_rtsp_connection
        "RTSP/1.0 200 OK\r\nContent-Type: application/sdp\r\nv=0").has_valid_sdp =
      some true :=
  (claim_C2_sdp_gate "RTSP/1.0 200 OK\r\nContent-Type: application/sdp\r\nv=0"
    rfl).1.mpr ⟨rfl, rfl⟩

/-- Claim C3 (amended): the permissiveness detector issues one DESCRIBE
against the deliberately nonexistent path and reports permissive exactly
when the probe's status code is 200 or 401 — SDP validity is not consulted,
so a 200 without valid SDP also yields permissive; 404, any other code, or
an unparseable response yields strict.  Classifier-reachable probes are
always reported permissive. -/
theorem claim_C3_permissive_detector (server : String → String) (host : String)
    (port : Nat) (u p : Option String) :
    (is_permissive_server server host port u p = true ↔
      ((test_rtsp_connection
          (server (generate_rtsp_url host port INVALID_TEST_PATH u p))).status_code =
            some 200 ∨
        (test_rtsp_connection
          (server (generate_rtsp_url host port INVALID_TEST_PATH u p))).status_code =
            some 401)) ∧
    ((test_rtsp_connection
        (server (generate_rtsp_url host port INVALID_TEST_PATH u p))).reachable =
          true →
      is_permissive_server server host port u p = true) := by
  constructor
  · simp only [is_permissive_server]
    exact decide_eq_true_iff
  · intro hre
    simp only [is_permissive_server]
    rw [decide_eq_true_iff]
    exact reachable_status _ hre

/-- Counterexample to claim C3 as stated: a 200 probe response without
valid SDP is not classifier-reachable, yet the detector reports the server
permissive. -/
theorem claim_C3_counterexample :
    is_permissive_server (fun _ => "RTSP/1.0 200 OK\r\nCSeq: 1\r\n\r\n")
        "10.0.0.5" 554 none none = true ∧
    (test_rtsp_connection "RTSP/1.0 200 OK\r\nCSeq: 1\r\n\r\n").reachable = false ∧
    (test_rtsp_connection "RTSP/1.0 200 OK\r\nCSeq: 1\r\n\r\n").error =
      some "No valid SDP content" :=
  ⟨rfl, rfl, rfl⟩

/-- Witness for claim C3 at a concrete reachable 401 probe. -/
theorem claim_C3_witness :
    is_permissive_server (fun _ => "RTSP/1.0 401 Unauthorized\r\n\r\n")
      "cam" 8554 none none = true :=
  (claim_C3_permissive_detector (fun _ => "RTSP/1.0 401 Unauthorized\r\n\r\n")
    "cam" 8554 none none).2 rfl

/-- Claim C6 (amended): a statusCode is extracted exactly when the first
CRLF-split line starts with `RTSP/<digit>.<digit>` followed by at least one
whitespace character and a digit run of any positive length (trailing
content ignored); otherwise the outcome carries no statusCode, is not
reachable, and has error exactly "Invalid RTSP response". -/
theorem claim_C6_status_extraction (response : String) :
    ((test_rtsp_connection response).status_code.isSome = true ↔
      statusShape ((splitCRLF response.toList).headD [])) ∧
    ((test_rtsp_connection response).status_code = none →
      (test_rtsp_connection response).reachable = false ∧
      (test_rtsp_connection response).error = some "Invalid RTSP response") := by
  constructor
  · rw [← statusLineCode_isSome_iff]
    cases hm : statusLineCode ((splitCRLF response.toList).headD []) with
    | none => simp only [test_rtsp_connection_eq, hm]
    | some code =>
      simp only [test_rtsp_connection_eq, hm, classify_status_code_eq]
  · intro hnone
    cases hm : statusLineCode ((splitCRLF response.toList).headD []) with
    | none =>
      rw [test_rtsp_connection_eq, hm]
      exact ⟨rfl, rfl⟩
    | some code =>
      rw [test_rtsp_connection_eq, hm, classify_status_code_eq] at hnone
      simp at hnone

/-- Witness for claim C6 at a concrete malformed response. -/
theorem claim_C6_witness :
    (test_rtsp_connection "junk").reachable = false ∧
    (test_rtsp_connection "junk").error = some "Invalid RTSP response" :=
  (claim_C6_status_extraction "junk").2 rfl

/-- Counterexample to claim C6 as stated: the response whose first line is
`RTSP/1.0 7` carries no 3-digit code, yet a statusCode (7) is extracted and
the error is not "Invalid RTSP response". -/
theorem claim_C6_counterexample :
    (test_rtsp_connection "RTSP/1.0 7\r\n\r\n").status_code = some 7 ∧
    spec_status_shape ((splitCRLF ("RTSP/1.0 7\r\n\r\n").toList).headD []) = false ∧
    (test_rtsp_connection "RTSP/1.0 7\r\n\r\n").error = some "Status code: 7" :=
  ⟨rfl, rfl, rfl⟩

/-- Claim C4: the transport probe is total over every connect outcome —
each exception handler included — and always returns a record carrying the
requested host and port, with status open exactly when the connect call
succeeded (returned code 0) within the deadline, and the elapsed time
recorded in every case. -/
theorem claim_C4_scan_port_total (host : String) (port : Nat)
    (a : ConnectAttempt) :
    (scan_port host port a).1 = host ∧
    (scan_port host port a).2.1 = port ∧
    ((scan_port host port a).2.2.1 = true ↔
      a = ConnectAttempt.completed 0 a.elapsed) ∧
    (scan_port host port a).2.2.2 = a.elapsed := by
  cases a <;> simp [scan_port, ConnectAttempt.elapsed]

/-- Witness for claim C4 at a concrete timed-out attempt. -/
theorem claim_C4_witness :
    (scan_port "10.0.0.5" 554 (ConnectAttempt.timedOut 2)).2.2.1 = false :=
  Bool.not_eq_true _ ▸ fun hc =>
    (by simp : ConnectAttempt.timedOut (2 : ℚ) ≠ ConnectAttempt.completed 0
        ((ConnectAttempt.timedOut (2 : ℚ)).elapsed))
      ((claim_C4_scan_port_total "10.0.0.5" 554 (ConnectAttempt.timedOut 2)).2.2.1.mp hc)

/-- Claim C5 (amended): a malformed CIDR or IP-range input does not fail
the enclosing scan call: the parse error is caught inside
scan_network/scan_ip_range, which log it and return an ordinary empty
result collection with no per-target records. -/
theorem claim_C5_malformed_input (e : String)
    (net : String → Nat → ConnectAttempt) (ports : List Nat) :
    scan_network (Except.error e) net ports = Except.ok [] ∧
    (∀ ep : Except String Nat,
      scan_ip_range (Except.error e) ep net ports = Except.ok []) ∧
    (∀ sp : Except String Nat,
      scan_ip_range sp (Except.error e) net ports = Except.ok []) := by
  refine ⟨rfl, fun ep => rfl, fun sp => ?_⟩
  cases sp <;> rfl

/-- Counterexample to claim C5 as stated: on a malformed network string the
scan call does not surface a failed call — it returns the ordinary empty
collection. -/
theorem claim_C5_counterexample :
    scan_network (Except.error "192.168.1.0/33 is not a valid network")
        (fun _ _ => ConnectAttempt.timedOut 2) [554] = Except.ok [] ∧
    scan_ip_range (Except.error "Expected 4 octets in nonsense") (Except.ok 0)
        (fun _ _ => ConnectAttempt.timedOut 2) [554] = Except.ok [] :=
  ⟨rfl, rfl⟩

/-- Claim C7: stream-type classification is a pure lexical cascade — the
Hikvision numeric pattern is consulted first and maps a second channel
digit 1 to Main and 2 to Sub, no path is classified both Main and Sub,
and otherwise sub indicators are checked before main indicators with
Unknown (the empty string) when nothing matches. -/
theorem claim_C7_stream_type (path : String) :
    (firstHikDigit (lowerStr path.toList) = some '1' →
      detect_stream_type path = "Main") ∧
    (firstHikDigit (lowerStr path.toList) = some '2' →
      detect_stream_type path = "Sub") ∧
    ¬(detect_stream_type path = "Main" ∧ detect_stream_type path = "Sub") ∧
    (¬(firstHikDigit (lowerStr path.toList) = some '1' ∨
        firstHikDigit (lowerStr path.toList) = some '2') →
      (hasSubIndicator (lowerStr path.toList) = true →
        detect_stream_type path = "Sub") ∧
      (hasSubIndicator (lowerStr path.toList) = false →
        hasMainIndicator (lowerStr path.toList) = true →
          detect_stream_type path = "Main") ∧
      (hasSubIndicator (lowerStr path.toList) = false →
        hasMainIndicator (lowerStr path.toList) = false →
          detect_stream_type path = "")) := by
  refine ⟨?_, ?_, ?_, ?_⟩
  · intro h1
    simp only [detect_stream_type, h1]
    rfl
  · intro h2
    simp only [detect_stream_type, h2]
    rfl
  · rintro ⟨hm, hs⟩
    rw [hm] at hs
    exact absurd hs (by decide)
  · intro hno
    have hind : detect_stream_type path = indicator_stream_type (lowerStr path.toList) := by
      simp only [detect_stream_type]
      cases hfd : firstHikDigit (lowerStr path.toList) with
      | none => rfl
      | some b =>
        have hb1 : ¬b = '1' := fun hb => hno (Or.inl (by rw [hfd, hb]))
        have hb2 : ¬b = '2' := fun hb => hno (Or.inr (by rw [hfd, hb]))
        simp [hb1, hb2]
    refine ⟨?_, ?_, ?_⟩
    · intro hsub
      rw [hind]
      unfold indicator_stream_type
      rw [if_pos hsub]
    · intro hsub hmain
      rw [hind]
      unfold indicator_stream_type
      rw [if_neg (by rw [hsub]; simp), if_pos hmain]
    · intro hsub hmain
      rw [hind]
      unfold indicator_stream_type
      rw [if_neg (by rw [hsub]; simp), if_neg (by rw [hmain]; simp)]

/-- Witness for claim C7 at concrete Hikvision and indicator paths. -/
theorem claim_C7_witness :
    detect_stream_type "/Streaming/Channels/101" = "Main" ∧
    detect_stream_type "/Streaming/Channels/102" = "Sub" ∧
    detect_stream_type "/videoSub" = "Sub" :=
  ⟨(claim_C7_stream_type "/Streaming/Channels/101").1 rfl,
   (claim_C7_stream_type "/Streaming/Channels/102").2.1 rfl,
   ((claim_C7_stream_type "/videoSub").2.2.2 (by decide)).1 rfl⟩

/-- Claim C8: parseDescription takes the codec from the first rtpmap
attribute normalized by the fixed mapping (anything unlisted uppercased
verbatim), takes the resolution from the first match in the fixed priority
order of the four attribute shapes formatted as width x height, and leaves
either field unset when nothing matches — it is total and never errors. -/
theorem claim_C8_parse_sdp (lines : List Str) :
    ((parse_sdp lines).1 =
      Option.map (fun w => normalizeCodec (String.mk (upperStr w)))
        (searchRtpmap (lowerStr (joinNL lines)))) ∧
    ((parse_sdp lines).2 =
      Option.map (fun q => String.mk q.1 ++ "x" ++ String.mk q.2)
        (resFirstMatch (lowerStr (joinNL lines)))) ∧
    normalizeCodec "H264" = "H.264" ∧ normalizeCodec "H265" = "H.265" ∧
    normalizeCodec "HEVC" = "H.265" ∧ normalizeCodec "MJPEG" = "MJPEG" ∧
    normalizeCodec "JPEG" = "MJPEG" ∧ normalizeCodec "MPEG4" = "MPEG4" ∧
    (∀ s : String,
      s ∉ ["H264", "H.264", "H265", "H.265", "HEVC", "MJPEG", "JPEG", "MPEG4"] →
        normalizeCodec s = s) ∧
    (∀ t, (searchLeft matchXDimAt t).isSome = true →
      resFirstMatch t = searchLeft matchXDimAt t) ∧
    (∀ t, searchLeft matchXDimAt t = none →
      (searchLeft matchFramesizeAt t).isSome = true →
        resFirstMatch t = searchLeft matchFramesizeAt t) ∧
    (∀ t, searchLeft matchXDimAt t = none →
      searchLeft matchFramesizeAt t = none →
        (searchLeft matchResAttrAt t).isSome = true →
          resFirstMatch t = searchLeft matchResAttrAt t) ∧
    (∀ t, searchLeft matchXDimAt t = none →
      searchLeft matchFramesizeAt t = none →
        searchLeft matchResAttrAt t = none →
          resFirstMatch t = searchLeft matchWidthAt t) := by
  refine ⟨?_, ?_, rfl, rfl, rfl, rfl, rfl, rfl, ?_, ?_, ?_, ?_, ?_⟩
  · cases hc : searchRtpmap (lowerStr (joinNL lines)) with
    | none => simp [parse_sdp, hc]
    | some w => simp [parse_sdp, hc]
  · cases hr : resFirstMatch (lowerStr (joinNL lines)) with
    | none => simp [parse_sdp, hr]
    | some q => simp [parse_sdp, hr]
  · intro s hs
    simp only [List.mem_cons, List.not_mem_nil, or_false, not_or] at hs
    obtain ⟨h1, h2, h3, h4, h5, h6, h7, h8⟩ := hs
    simp [normalizeCodec, h1, h2, h3, h4, h5, h6, h7, h8]
  · intro t ht
    obtain ⟨r, hr⟩ := Option.isSome_iff_exists.mp ht
    unfold resFirstMatch
    rw [hr]
    rfl
  · intro t h1 ht
    obtain ⟨r, hr⟩ := Option.isSome_iff_exists.mp ht
    unfold resFirstMatch
    rw [h1, hr]
    rfl
  · intro t h1 h2 ht
    obtain ⟨r, hr⟩ := Option.isSome_iff_exists.mp ht
    unfold resFirstMatch
    rw [h1, h2, hr]
    rfl
  · intro t h1 h2 h3
    unfold resFirstMatch
    rw [h1, h2, h3]
    rfl

/-- Witness for claim C8 at a concrete SDP body and a concrete unmapped
codec name. -/
theorem claim_C8_witness :
    (parse_sdp ["a=rtpmap:96 H264/90000".toList]).1 = some "H.264" ∧
    normalizeCodec "VP9" = "VP9" := by
  constructor
  · rw [(claim_C8_parse_sdp ["a=rtpmap:96 H264/90000".toList]).1]
    rfl
  · exact (claim_C8_parse_sdp []).2.2.2.2.2.2.2.2.1 "VP9" (by decide)

/-- A kept channel record comes from a probe the classifier called
reachable. -/
theorem test_channel_some_reachable (url path : String) (perm : Bool)
    (r : String) (info : ChannelInfo)
    (h : test_channel url path perm r = some info) :
    (test_rtsp_connection r).reachable = true := by
  simp only [test_channel] at h
  split_ifs at h with hc
  rcases hc with ⟨h200, hsdp⟩ | ⟨h401, _⟩
  · exact valid200_reachable r h200 hsdp
  · exact status401_reachable r h401

/-- A kept credential record has status 200 and comes from a probe with
valid SDP recorded. -/
theorem creds_some_facts (url path u p : String) (r : String) (rec : CredRec)
    (h : test_channel_with_creds url path u p r = some rec) :
    rec.status_code = some 200 ∧
      (test_rtsp_connection r).has_valid_sdp = some true := by
  simp only [test_channel_with_creds] at h
  split_ifs at h with hc
  obtain ⟨hre, h200⟩ := hc
  obtain rfl := Option.some.inj h
  exact ⟨h200, reachable200_valid_sdp r hre h200⟩

/-- Claim C9: every collection a scan returns contains only positive
results — port records are open, channel records come from probes the
classifier called reachable, credential records carry status 200 with valid
SDP — while the progress counter counts every dispatched work item exactly
once, whatever order completions arrive in. -/
theorem claim_C9_positive_results :
    (∀ (submitted order : List (String × Nat × Bool × ℚ)),
      submitted.Perm order →
        (scan_host order).2 = submitted.length ∧
        ∀ rec ∈ (scan_host order).1, rec.status = "open") ∧
    (∀ (submitted order : List (String × String × Bool × String)),
      submitted.Perm order →
        (drain_results channel_item_run order).2 = submitted.length ∧
        ∀ info ∈ (drain_results channel_item_run order).1,
          ∃ it ∈ submitted, channel_item_run it = some info ∧
            (test_rtsp_connection it.2.2.2).reachable = true) ∧
    (∀ (submitted order : List (String × String × String × String × String)),
      submitted.Perm order →
        (drain_results cred_item_run order).2 = submitted.length ∧
        ∀ rec ∈ (drain_results cred_item_run order).1,
          rec.status_code = some 200 ∧
          ∃ it ∈ submitted, cred_item_run it = some rec ∧
            (test_rtsp_connection it.2.2.2.2).has_valid_sdp = some true) := by
  refine ⟨?_, ?_, ?_⟩
  · intro submitted order hperm
    constructor
    · rw [scan_host, drain_results_count, hperm.length_eq]
    · intro rec hrec
      obtain ⟨a, _, ha⟩ := drain_results_mem port_positive order rec hrec
      simp only [port_positive] at ha
      split_ifs at ha
      obtain rfl := Option.some.inj ha
      rfl
  · intro submitted order hperm
    constructor
    · rw [drain_results_count, hperm.length_eq]
    · intro info hinfo
      obtain ⟨a, ha, hfa⟩ := drain_results_mem channel_item_run order info hinfo
      exact ⟨a, hperm.mem_iff.mpr ha, hfa,
        test_channel_some_reachable a.1 a.2.1 a.2.2.1 a.2.2.2 info hfa⟩
  · intro submitted order hperm
    constructor
    · rw [drain_results_count, hperm.length_eq]
    · intro rec hrec
      obtain ⟨a, ha, hfa⟩ := drain_results_mem cred_item_run order rec hrec
      obtain ⟨h200, hsdp⟩ :=
        creds_some_facts a.1 a.2.1 a.2.2.1 a.2.2.2.1 a.2.2.2.2 rec hfa
      exact ⟨h200, a, hperm.mem_iff.mpr ha, hfa, hsdp⟩

/-- Witness for claim C9 at a concrete one-item port scan. -/
theorem claim_C9_witness :
    (scan_host [("10.0.0.5", 554, true, (1 : ℚ))]).2 = 1 :=
  (claim_C9_positive_results.1 [("10.0.0.5", 554, true, 1)]
    [("10.0.0.5", 554, true, 1)] (List.Perm.refl _)).1

/-- Claim C10: generate_rtsp_url embeds a username:password part only when
both components are truthy, keeps the username alone (no password
separator) when only the username is truthy, and emits no credential part
at all when the username is empty or None — so the default-corpus pairs
with empty components are probed without an embedded password. -/
theorem claim_C10_url_credentials (host : String) (port : Nat) (path : String)
    (u p : Option String) :
    (truthy u = true → truthy p = true →
      generate_rtsp_url host port path u p =
        "rtsp://" ++ u.getD "" ++ ":" ++ p.getD "" ++ "@" ++ host ++ ":" ++
          toString port ++ path) ∧
    (truthy u = true → truthy p = false →
      generate_rtsp_url host port path u p =
        "rtsp://" ++ u.getD "" ++ "@" ++ host ++ ":" ++ toString port ++ path) ∧
    (truthy u = false →
      generate_rtsp_url host port path u p =
        "rtsp://" ++ host ++ ":" ++ toString port ++ path) ∧
    ("admin", "") ∈ COMMON_CREDENTIALS ∧ ("", "") ∈ COMMON_CREDENTIALS ∧
    generate_rtsp_url host port path (some "admin") (some "") =
      "rtsp://admin@" ++ host ++ ":" ++ toString port ++ path ∧
    generate_rtsp_url host port path (some "") (some "") =
      "rtsp://" ++ host ++ ":" ++ toString port ++ path := by
  refine ⟨?_, ?_, ?_, by decide, by decide, ?_, ?_⟩
  · intro hu hp
    unfold generate_rtsp_url
    rw [if_pos (by rw [hu, hp]; rfl)]
  · intro hu hp
    unfold generate_rtsp_url
    rw [if_neg (by rw [hu, hp]; simp), if_pos hu]
  · intro hu
    unfold generate_rtsp_url
    rw [if_neg (by rw [hu]; simp), if_neg (by rw [hu]; simp)]
  · unfold generate_rtsp_url
    rw [if_neg (by decide), if_pos (by decide)]
    rfl
  · unfold generate_rtsp_url
    rw [if_neg (by decide), if_neg (by decide)]

/-- Witness for claim C10 at concrete credential pairs. -/
theorem claim_C10_witness :
    generate_rtsp_url "cam" 554 "/" (some "admin") (some "pw") =
      "rtsp://admin:pw@cam:554/" :=
  ((claim_C10_url_credentials "cam" 554 "/" (some "admin") (some "pw")).1
    rfl rfl).trans rfl
